import Mathlib

/-!
Verification development for the TEMPO air-quality extraction pipeline
(`backend/main.py`).  Python float arithmetic on the values handled by the
pipeline is modelled exactly over `ℚ`; the distinguished non-values `None`
and `NaN` are modelled explicitly.  Every definition is translated directly
from the source; definitions whose doc comment starts with
"Modelled from the spec" restate the specification's words for comparison
with the source translation.
-/

/-- A Python float as consumed by the pipeline: NaN or a finite value
(finite doubles are modelled exactly as rationals; infinities never reach
these code paths). -/
inductive FloatVal where
  | nan : FloatVal
  | fin : ℚ → FloatVal
deriving DecidableEq

/-- Python `int()` applied to a float: truncation toward zero. -/
def pyInt (q : ℚ) : ℤ := if 0 ≤ q then ⌊q⌋ else ⌈q⌉

/-- The piecewise-linear index formula and category label computed by
`calculate_aqi` (main.py lines 74-126), i.e. the local variables `aqi` and
`level` just before the final `return`. -/
def aqi_level (pollutant : String) (value : ℚ) : ℚ × String :=
  if pollutant = "NO2" then
    if value ≤ 53 then (value * 50 / 53, "Good")
    else if value ≤ 100 then (50 + (value - 53) * 50 / 47, "Moderate")
    else if value ≤ 360 then (100 + (value - 100) * 100 / 260, "Unhealthy for Sensitive Groups")
    else if value ≤ 649 then (200 + (value - 360) * 100 / 289, "Unhealthy")
    else (300 + (value - 649) * 100 / 351, "Very Unhealthy")
  else if pollutant = "O3" then
    if value ≤ 300 then (value / 6, "Good")
    else if value ≤ 350 then (50 + (value - 300), "Moderate")
    else if value ≤ 400 then (100 + (value - 350), "Unhealthy for Sensitive Groups")
    else if value ≤ 500 then (150 + (value - 400) / 2, "Unhealthy")
    else (200 + (value - 500) / 5, "Very Unhealthy")
  else if pollutant = "HCHO" then
    if value ≤ 10 then (value * 50 / 10, "Good")
    else if value ≤ 20 then (50 + (value - 10) * 50 / 10, "Moderate")
    else (100 + (value - 20) * 2, "Unhealthy for Sensitive Groups")
  else
    if value ≤ 50 then (value, "Good")
    else if value ≤ 100 then (50 + (value - 50), "Moderate")
    else (100 + (value - 100) * 0.5, "Unhealthy for Sensitive Groups")

/-- `calculate_aqi` (main.py lines 70-128).  A `None` or NaN input yields
`(None, "No disponible")`; otherwise the piecewise formula is evaluated and
the code returns `int(aqi) if aqi else None, level` — so the score is the
truncation of `aqi`, except that the Python float `0.0` is falsy and the
score degenerates to `None` when `aqi` is exactly zero. -/
def calculate_aqi (pollutant : String) (value : Option FloatVal) : Option ℤ × String :=
  match value with
  | none => (none, "No disponible")
  | some FloatVal.nan => (none, "No disponible")
  | some (FloatVal.fin v) =>
      let r := aqi_level pollutant v
      (if r.1 = 0 then none else some (pyInt r.1), r.2)

/-- Modelled from the spec: the same breakpoint tables with every boundary
value attached to the *next* segment (strict comparisons).  Its score agrees
with `aqi_level`'s everywhere exactly when each segment's formula evaluated
at its upper bound equals the next segment's formula evaluated at its lower
bound — the contiguity property of §4.5. -/
def aqi_level_strict (pollutant : String) (value : ℚ) : ℚ × String :=
  if pollutant = "NO2" then
    if value < 53 then (value * 50 / 53, "Good")
    else if value < 100 then (50 + (value - 53) * 50 / 47, "Moderate")
    else if value < 360 then (100 + (value - 100) * 100 / 260, "Unhealthy for Sensitive Groups")
    else if value < 649 then (200 + (value - 360) * 100 / 289, "Unhealthy")
    else (300 + (value - 649) * 100 / 351, "Very Unhealthy")
  else if pollutant = "O3" then
    if value < 300 then (value / 6, "Good")
    else if value < 350 then (50 + (value - 300), "Moderate")
    else if value < 400 then (100 + (value - 350), "Unhealthy for Sensitive Groups")
    else if value < 500 then (150 + (value - 400) / 2, "Unhealthy")
    else (200 + (value - 500) / 5, "Very Unhealthy")
  else if pollutant = "HCHO" then
    if value < 10 then (value * 50 / 10, "Good")
    else if value < 20 then (50 + (value - 10) * 50 / 10, "Moderate")
    else (100 + (value - 20) * 2, "Unhealthy for Sensitive Groups")
  else
    if value < 50 then (value, "Good")
    else if value < 100 then (50 + (value - 50), "Moderate")
    else (100 + (value - 100) * 0.5, "Unhealthy for Sensitive Groups")

/-- The conversion-factor table of `convert_molecules_to_ppb`
(main.py lines 134-139); `dict.get` falls back to `5e-16` for unknown
pollutants. -/
def conversion_factor (pollutant : String) : ℚ :=
  if pollutant = "NO2" then 5 / 10 ^ 16
  else if pollutant = "HCHO" then 8 / 10 ^ 16
  else 5 / 10 ^ 16

/-- `convert_molecules_to_ppb` (main.py lines 130-141):
`None`/NaN pass through as `None`, otherwise `abs(molecules_cm2) * factor`. -/
def convert_molecules_to_ppb (molecules_cm2 : Option FloatVal) (pollutant : String) : Option ℚ :=
  match molecules_cm2 with
  | none => none
  | some FloatVal.nan => none
  | some (FloatVal.fin m) => some (|m| * conversion_factor pollutant)

/-- The validation test of `process_tempo_netcdf` line 302:
`np.isnan(value) or value < -9e30 or value > 1e30`. -/
def is_invalid_value : FloatVal → Bool
  | FloatVal.nan => true
  | FloatVal.fin v => decide (v < -(9 * 10 ^ 30)) || decide (10 ^ 30 < v)

/-- The validate-and-convert tail of `process_tempo_netcdf`
(main.py lines 300-320): reject an invalid value; then NO2/HCHO are
converted from molecules/cm² to ppb, O3 is reported as `abs(value)` in
Dobson units, and any other pollutant falls through to `None`. -/
def validate_and_convert (pollutant : String) (value : FloatVal) : Option ℚ :=
  if is_invalid_value value then none
  else
    match value with
    | FloatVal.nan => none
    | FloatVal.fin v =>
        if pollutant = "NO2" ∨ pollutant = "HCHO" then
          convert_molecules_to_ppb (some (FloatVal.fin v)) pollutant
        else if pollutant = "O3" then some |v|
        else none

example : calculate_aqi "NO2" (some (FloatVal.fin 0)) = (none, "Good") := by
  norm_num [calculate_aqi, aqi_level]
example : calculate_aqi "NO2" (some (FloatVal.fin 53)) = (some 50, "Good") := by
  norm_num [calculate_aqi, aqi_level, pyInt]
example : calculate_aqi "NO2" (some (FloatVal.fin (5301 / 100))) = (some 50, "Moderate") := by
  norm_num [calculate_aqi, aqi_level, pyInt]
example : validate_and_convert "O3" (FloatVal.fin (-(5 * 10 ^ 30))) = some (5 * 10 ^ 30) := by
  have h1 : ¬("O3" = "NO2" ∨ "O3" = "HCHO") := by decide
  norm_num [validate_and_convert, is_invalid_value, h1]
example : validate_and_convert "O3" (FloatVal.fin (5 * 10 ^ 30)) = none := by
  norm_num [validate_and_convert, is_invalid_value]
example : convert_molecules_to_ppb (some (FloatVal.fin (2 * 10 ^ 15))) "NO2" = some 1 := by
  norm_num [convert_molecules_to_ppb, conversion_factor]

/-- Minimum of a list of rationals (`0` for the empty list, which the
matcher never produces). -/
def listMin : List ℚ → ℚ
  | [] => 0
  | [x] => x
  | x :: y :: r => min x (listMin (y :: r))

/-- Index of the first occurrence of the minimum of a list — the
tie-breaking rule documented for `np.argmin`. -/
def argminIdx : List ℚ → Nat
  | [] => 0
  | [_] => 0
  | x :: y :: r => if x ≤ listMin (y :: r) then 0 else argminIdx (y :: r) + 1

theorem listMin_cons (x : ℚ) (r : List ℚ) (h : r ≠ []) :
    listMin (x :: r) = min x (listMin r) := by
  cases r with
  | nil => exact absurd rfl h
  | cons y t => rfl

theorem argminIdx_cons (x : ℚ) (r : List ℚ) (h : r ≠ []) :
    argminIdx (x :: r) = if x ≤ listMin r then 0 else argminIdx r + 1 := by
  cases r with
  | nil => exact absurd rfl h
  | cons y t => rfl

theorem map_ne_nil {α β : Type} (f : α → β) {l : List α} (h : l ≠ []) : l.map f ≠ [] := by
  cases l with
  | nil => exact absurd rfl h
  | cons a r => simp

theorem listMin_append (xs ys : List ℚ) (hx : xs ≠ []) (hy : ys ≠ []) :
    listMin (xs ++ ys) = min (listMin xs) (listMin ys) := by
  induction xs with
  | nil => exact absurd rfl hx
  | cons x r ih =>
    cases r with
    | nil =>
      rw [List.cons_append, List.nil_append, listMin_cons x ys hy]
      rfl
    | cons y t =>
      have hr : (y :: t : List ℚ) ≠ [] := by simp
      have hra : ((y :: t) ++ ys : List ℚ) ≠ [] := by simp
      rw [List.cons_append, listMin_cons x _ hra, ih hr, listMin_cons x _ hr, min_assoc]

theorem argminIdx_append (xs ys : List ℚ) (hx : xs ≠ []) (hy : ys ≠ []) :
    argminIdx (xs ++ ys) =
      if listMin xs ≤ listMin ys then argminIdx xs else xs.length + argminIdx ys := by
  induction xs with
  | nil => exact absurd rfl hx
  | cons x r ih =>
    cases r with
    | nil =>
      rw [List.cons_append, List.nil_append, argminIdx_cons x ys hy]
      simp only [listMin, argminIdx, List.length_cons, List.length_nil]
      split_ifs <;> omega
    | cons y t =>
      have hr : (y :: t : List ℚ) ≠ [] := by simp
      have hra : ((y :: t) ++ ys : List ℚ) ≠ [] := by simp
      rw [List.cons_append, argminIdx_cons x _ hra, ih hr, listMin_append _ _ hr hy,
        argminIdx_cons x _ hr, listMin_cons x _ hr]
      simp only [List.length_cons]
      rcases le_or_lt x (listMin (y :: t)) with h1 | h1 <;>
        rcases le_or_lt (listMin (y :: t)) (listMin ys) with h2 | h2 <;>
        rcases le_or_lt x (listMin ys) with h3 | h3
      · rw [if_pos (le_min h1 h3), if_pos (le_trans (min_le_left x _) h3), if_pos h1]
      · linarith
      · rw [if_pos (le_min h1 h3), if_pos (le_trans (min_le_left x _) h3), if_pos h1]
      · have hm : ¬ x ≤ min (listMin (y :: t)) (listMin ys) := by
          rw [min_eq_right h2.le]; exact not_le.mpr h3
        have hmx : ¬ min x (listMin (y :: t)) ≤ listMin ys := by
          rw [min_eq_left h1]; exact not_le.mpr h3
        rw [if_neg hm, if_neg (not_le.mpr h2), if_neg hmx]
        omega
      · have hm : ¬ x ≤ min (listMin (y :: t)) (listMin ys) := by
          rw [min_eq_left h2]; exact not_le.mpr h1
        rw [if_neg hm, if_pos h2, if_pos (le_trans (min_le_right x _) h2),
          if_neg (not_le.mpr h1)]
      · have hm : ¬ x ≤ min (listMin (y :: t)) (listMin ys) := by
          rw [min_eq_left h2]; exact not_le.mpr h1
        rw [if_neg hm, if_pos h2, if_pos (le_trans (min_le_right x _) h2),
          if_neg (not_le.mpr h1)]
      · linarith
      · have hm : ¬ x ≤ min (listMin (y :: t)) (listMin ys) := by
          rw [min_eq_right h2.le]; exact not_le.mpr h3
        have hmx : ¬ min x (listMin (y :: t)) ≤ listMin ys := not_le.mpr (lt_min h3 h2)
        rw [if_neg hm, if_neg (not_le.mpr h2), if_neg hmx]
        omega

theorem listMin_map_add (c : ℚ) (xs : List ℚ) (hx : xs ≠ []) :
    listMin (xs.map fun y => c + y) = c + listMin xs := by
  induction xs with
  | nil => exact absurd rfl hx
  | cons x r ih =>
    cases r with
    | nil => simp [listMin]
    | cons y t =>
      have hr : (y :: t : List ℚ) ≠ [] := by simp
      rw [List.map_cons, listMin_cons _ _ (map_ne_nil _ hr), ih hr, listMin_cons x _ hr,
        min_add_add_left]

theorem argminIdx_map_add (c : ℚ) (xs : List ℚ) :
    argminIdx (xs.map fun y => c + y) = argminIdx xs := by
  induction xs with
  | nil => rfl
  | cons x r ih =>
    cases r with
    | nil => rfl
    | cons y t =>
      have hr : (y :: t : List ℚ) ≠ [] := by simp
      rw [List.map_cons, argminIdx_cons _ _ (map_ne_nil _ hr), ih,
        argminIdx_cons x _ hr, listMin_map_add c _ hr]
      simp [add_le_add_iff_left]

theorem argminIdx_lt_length (xs : List ℚ) (hx : xs ≠ []) : argminIdx xs < xs.length := by
  induction xs with
  | nil => exact absurd rfl hx
  | cons x r ih =>
    cases r with
    | nil => simp [argminIdx]
    | cons y t =>
      rw [argminIdx_cons x _ (by simp)]
      have h := ih (by simp)
      split_ifs <;> simp only [List.length_cons] at h ⊢ <;> omega

/-- All pairwise sums `F[i] + G[j]`, flattened row-major — the shape of the
meshgrid distance computation once the squared distance is split into its
latitude and longitude components. -/
def sumGrid (F G : List ℚ) : List ℚ := (F.map fun x => G.map fun y => x + y).flatten

theorem sumGrid_cons (x : ℚ) (F G : List ℚ) :
    sumGrid (x :: F) G = (G.map fun y => x + y) ++ sumGrid F G := rfl

theorem sumGrid_nil (G : List ℚ) : sumGrid [] G = [] := rfl

theorem sumGrid_ne_nil (F G : List ℚ) (hF : F ≠ []) (hG : G ≠ []) :
    sumGrid F G ≠ [] := by
  cases F with
  | nil => exact absurd rfl hF
  | cons x r =>
    rw [sumGrid_cons]
    intro h
    rcases List.append_eq_nil.mp h with ⟨h1, _⟩
    exact map_ne_nil _ hG h1

theorem sumGrid_listMin (F G : List ℚ) (hF : F ≠ []) (hG : G ≠ []) :
    listMin (sumGrid F G) = listMin F + listMin G := by
  induction F with
  | nil => exact absurd rfl hF
  | cons x r ih =>
    cases r with
    | nil =>
      rw [sumGrid_cons, sumGrid_nil, List.append_nil, listMin_map_add x G hG]
      rfl
    | cons y t =>
      have hr : (y :: t : List ℚ) ≠ [] := by simp
      rw [sumGrid_cons,
        listMin_append _ _ (map_ne_nil _ hG) (sumGrid_ne_nil _ _ hr hG),
        listMin_map_add x G hG, ih hr, listMin_cons x _ hr, min_add_add_right]

theorem sumGrid_argmin (F G : List ℚ) (hF : F ≠ []) (hG : G ≠ []) :
    argminIdx (sumGrid F G) = argminIdx F * G.length + argminIdx G := by
  induction F with
  | nil => exact absurd rfl hF
  | cons x r ih =>
    cases r with
    | nil =>
      rw [sumGrid_cons, sumGrid_nil, List.append_nil, argminIdx_map_add x G]
      simp [argminIdx]
    | cons y t =>
      have hr : (y :: t : List ℚ) ≠ [] := by simp
      rw [sumGrid_cons,
        argminIdx_append _ _ (map_ne_nil _ hG) (sumGrid_ne_nil _ _ hr hG),
        listMin_map_add x G hG, sumGrid_listMin _ _ hr hG,
        argminIdx_map_add x G, ih hr, argminIdx_cons x _ hr]
      simp only [add_le_add_iff_right, List.length_map]
      split_ifs with h
      · omega
      · ring

/-- `np.argmin(np.abs(xs - t))`: index of the axis entry nearest to `t`. -/
def argminAbs (xs : List ℚ) (t : ℚ) : Nat := argminIdx (xs.map fun x => |x - t|)

/-- The nearest-grid-point lookup of the L3 branch of `process_tempo_netcdf`
(main.py lines 216-226): latitude and longitude indices are resolved
independently, each by `np.argmin(np.abs(axis - target))`. -/
def l3_nearest (lats lons : List ℚ) (lat lon : ℚ) : Nat × Nat :=
  (argminAbs lats lat, argminAbs lons lon)

/-- The squared degree-space distance grid: models
`(lats_2d - lat)**2 + (lons_2d - lon)**2` of main.py line 295.  The source
takes `np.sqrt` of this; the square root is strictly increasing, so every
arg-minimum (ties included) is unchanged by dropping it. -/
def distGrid (lats2 lons2 : List (List ℚ)) (lat lon : ℚ) : List (List ℚ) :=
  List.zipWith
    (fun ra rb => List.zipWith (fun a b => (a - lat) ^ 2 + (b - lon) ^ 2) ra rb)
    lats2 lons2

/-- `np.unravel_index(k, shape)` for a row-major array of row width `w`. -/
def unravel (k w : Nat) : Nat × Nat := (k / w, k % w)

/-- `distances.argmin()` on the flattened row-major array followed by
`np.unravel_index(..., distances.shape)` (main.py line 296). -/
def flatArgmin (rows : List (List ℚ)) : Nat × Nat :=
  unravel (argminIdx rows.flatten) ((rows.headD []).length)

/-- `lats_2d` of `np.meshgrid(lons, lats)` (main.py line 290):
`lats_2d[i][j] = lats[i]`. -/
def meshgridLats (lons lats : List ℚ) : List (List ℚ) :=
  lats.map fun a => lons.map fun _ => a

/-- `lons_2d` of `np.meshgrid(lons, lats)` (main.py line 290):
`lons_2d[i][j] = lons[j]`. -/
def meshgridLons (lons lats : List ℚ) : List (List ℚ) :=
  lats.map fun _ => lons

/-- Coordinate arrays as found in an L2 file: separable 1-D axes or full
2-D per-cell arrays. -/
inductive Coords where
  | oneD : List ℚ → List ℚ → Coords
  | twoD : List (List ℚ) → List (List ℚ) → Coords

/-- The L2 nearest-point matcher (main.py lines 288-297): 1-D axes are
meshgridded first (`len(lats.shape) == 1 and len(lons.shape) == 1`),
2-D arrays are used as they are; either way the nearest cell is the
arg-minimum of degree-space Euclidean distance over the flattened grid. -/
def l2_nearest (c : Coords) (lat lon : ℚ) : Nat × Nat :=
  match c with
  | Coords.oneD lats lons =>
      flatArgmin (distGrid (meshgridLats lons lats) (meshgridLons lons lats) lat lon)
  | Coords.twoD lats2 lons2 => flatArgmin (distGrid lats2 lons2 lat lon)

/-- Modelled from the spec (§4.3): resolve latitude and longitude
independently via minimum absolute difference along each axis. -/
def spec_independent_nearest (lats lons : List ℚ) (lat lon : ℚ) : Nat × Nat :=
  (argminIdx (lats.map fun a => |a - lat|), argminIdx (lons.map fun b => |b - lon|))

/-- Modelled from the spec (§8): the arg-minimum of full pairwise Euclidean
distance over the meshgrid of the two axes (squared distances; `sqrt` is
strictly increasing, leaving every arg-minimum unchanged). -/
def spec_exhaustive_nearest (lats lons : List ℚ) (lat lon : ℚ) : Nat × Nat :=
  flatArgmin (lats.map fun a => lons.map fun b => (a - lat) ^ 2 + (b - lon) ^ 2)

/-- Modelled from the spec (§8): for 2-D coordinate arrays, the arg-minimum
of full pairwise Euclidean distance over all cells. -/
def spec_exhaustive_nearest_2d (lats2 lons2 : List (List ℚ)) (lat lon : ℚ) : Nat × Nat :=
  flatArgmin (distGrid lats2 lons2 lat lon)

theorem unravel_mul_add (i j n : Nat) (h : j < n) : unravel (i * n + j) n = (i, j) := by
  have hn : 0 < n := lt_of_le_of_lt (Nat.zero_le j) h
  unfold unravel
  rw [Nat.mul_comm i n, Nat.mul_add_div hn, Nat.div_eq_of_lt h, Nat.add_zero,
    Nat.mul_add_mod, Nat.mod_eq_of_lt h]

theorem abs_le_abs_iff_sq_le_sq (a b : ℚ) : |a| ≤ |b| ↔ a ^ 2 ≤ b ^ 2 := by
  constructor
  · intro h
    have h2 := mul_self_le_mul_self (abs_nonneg a) h
    rw [abs_mul_abs_self, abs_mul_abs_self] at h2
    simpa [sq] using h2
  · intro h
    by_contra hc
    push_neg at hc
    have h2 := mul_self_lt_mul_self (abs_nonneg b) hc
    rw [abs_mul_abs_self, abs_mul_abs_self] at h2
    rw [sq, sq] at h
    linarith

theorem le_listMin_map {α : Type} (φ : α → ℚ) (c : ℚ) (l : List α) (hl : l ≠ []) :
    c ≤ listMin (l.map φ) ↔ ∀ y ∈ l, c ≤ φ y := by
  induction l with
  | nil => exact absurd rfl hl
  | cons x r ih =>
    cases r with
    | nil => simp [listMin]
    | cons y t =>
      have hr : (y :: t : List α) ≠ [] := by simp
      rw [List.map_cons, listMin_cons _ _ (map_ne_nil _ hr), le_min_iff, ih hr]
      simp [List.forall_mem_cons, and_assoc]

theorem argminIdx_map_congr {α : Type} (φ ψ : α → ℚ)
    (h : ∀ a b, φ a ≤ φ b ↔ ψ a ≤ ψ b) (l : List α) :
    argminIdx (l.map φ) = argminIdx (l.map ψ) := by
  induction l with
  | nil => rfl
  | cons x r ih =>
    cases r with
    | nil => rfl
    | cons y t =>
      have hr : (y :: t : List α) ≠ [] := by simp
      have hiff : (φ x ≤ listMin ((y :: t).map φ)) ↔ (ψ x ≤ listMin ((y :: t).map ψ)) := by
        rw [le_listMin_map φ _ _ hr, le_listMin_map ψ _ _ hr]
        exact forall₂_congr fun a _ => h x a
      rw [show (x :: y :: t).map φ = φ x :: (y :: t).map φ from rfl,
        argminIdx_cons _ _ (map_ne_nil _ hr),
        show (x :: y :: t).map ψ = ψ x :: (y :: t).map ψ from rfl,
        argminIdx_cons _ _ (map_ne_nil _ hr), ih]
      simp only [hiff]

theorem argminAbs_eq_sq (xs : List ℚ) (t : ℚ) :
    argminIdx (xs.map fun x => (x - t) ^ 2) = argminAbs xs t := by
  unfold argminAbs
  exact argminIdx_map_congr _ _
    (fun a b => (abs_le_abs_iff_sq_le_sq (a - t) (b - t)).symm) xs

theorem zipWith_const_row (a lat lon : ℚ) (lons : List ℚ) :
    List.zipWith (fun x b => (x - lat) ^ 2 + (b - lon) ^ 2) (lons.map fun _ => a) lons
      = lons.map fun b => (a - lat) ^ 2 + (b - lon) ^ 2 := by
  induction lons with
  | nil => rfl
  | cons b r ih => simp only [List.map_cons, List.zipWith_cons_cons, ih]

theorem distGrid_meshgrid (lats lons : List ℚ) (lat lon : ℚ) :
    distGrid (meshgridLats lons lats) (meshgridLons lons lats) lat lon
      = lats.map fun a => lons.map fun b => (a - lat) ^ 2 + (b - lon) ^ 2 := by
  unfold distGrid meshgridLats meshgridLons
  induction lats with
  | nil => rfl
  | cons a r ih =>
    simp only [List.map_cons, List.zipWith_cons_cons, ih, List.cons.injEq, and_true]
    exact zipWith_const_row a lat lon lons

theorem flatArgmin_grid (lats lons : List ℚ) (lat lon : ℚ)
    (hla : lats ≠ []) (hlo : lons ≠ []) :
    flatArgmin (lats.map fun a => lons.map fun b => (a - lat) ^ 2 + (b - lon) ^ 2)
      = (argminAbs lats lat, argminAbs lons lon) := by
  unfold flatArgmin
  have hhead :
      (((lats.map fun a => lons.map fun b => (a - lat) ^ 2 + (b - lon) ^ 2).headD []).length)
        = lons.length := by
    cases lats with
    | nil => exact absurd rfl hla
    | cons a r => simp
  have hflat :
      (lats.map fun a => lons.map fun b => (a - lat) ^ 2 + (b - lon) ^ 2).flatten
        = sumGrid (lats.map fun a => (a - lat) ^ 2) (lons.map fun b => (b - lon) ^ 2) := by
    unfold sumGrid
    simp only [List.map_map, Function.comp_def]
  rw [hhead, hflat,
    sumGrid_argmin _ _ (map_ne_nil _ hla) (map_ne_nil _ hlo), List.length_map,
    argminAbs_eq_sq, argminAbs_eq_sq,
    unravel_mul_add _ _ _ (by
      have h := argminIdx_lt_length (lons.map fun b => (b - lon) ^ 2) (map_ne_nil _ hlo)
      rw [List.length_map] at h
      rw [argminAbs_eq_sq] at h
      exact h)]

/-- A successful `process_tempo_netcdf` result: the dict
`{"value": ..., "variable_used": ...}` (main.py lines 313 and 318). -/
structure Extracted where
  value : ℚ
  variable_used : String
deriving DecidableEq

/-- The outcome of one granule iteration as observed by
`process_tempo_data` (main.py lines 377-407): the download can fail, the
body can raise, or `process_tempo_netcdf` runs and returns its result
(`none` = no value) together with the diagnostic lines it printed. -/
inductive AttemptOutcome where
  | downloadFail : AttemptOutcome
  | exn : String → AttemptOutcome
  | processed : List String → Option Extracted → AttemptOutcome

/-- One iteration of the granule loop: the value it produces (if any) and
the diagnostics printed along the way. -/
def attempt_step : AttemptOutcome → Option Extracted × List String
  | AttemptOutcome.downloadFail => (none, ["Download failed for granule"])
  | AttemptOutcome.exn m => (none, ["Error with granule: " ++ m])
  | AttemptOutcome.processed diag r => (r, diag)

/-- The granule loop of `process_tempo_data` (main.py lines 377-410): each
granule is attempted in order; a failure falls through to the next granule
(`continue`), the first success returns immediately, and only after the
last granule is the aggregate failure reported. -/
def granule_loop : List AttemptOutcome → Option Extracted × List String
  | [] => (none, ["Could not process any granules"])
  | a :: rest =>
      let s := attempt_step a
      match s.1 with
      | some v => (some v, s.2)
      | none =>
          let r := granule_loop rest
          (r.1, s.2 ++ r.2)

/-- `process_tempo_data` (main.py lines 362-415): an empty granule list or
failed authentication returns immediately; otherwise at most the first 3
granules (`granules[:3]`) are attempted. -/
def process_tempo_data (auth : Bool) (granules : List AttemptOutcome) :
    Option Extracted × List String :=
  if granules.isEmpty then (none, [])
  else if ¬ auth then (none, ["Authentication failed"])
  else granule_loop (granules.take 3)

/-- `is_in_north_america` (main.py lines 67-68). -/
def is_in_north_america (lat lon : ℚ) : Prop :=
  (7 ≤ lat ∧ lat ≤ 83) ∧ (-168 ≤ lon ∧ lon ≤ -52)

instance (lat lon : ℚ) : Decidable (is_in_north_america lat lon) := by
  unfold is_in_north_america
  infer_instance

/-- One `AirQualityReading` as far as the extraction claims are concerned
(main.py lines 27-37; the timestamp/unit bookkeeping is not modelled). -/
structure Reading where
  pollutant : String
  value : Option ℚ
  aqi : Option ℤ
  quality_level : String
  available : Bool
  granules_found : Nat
deriving DecidableEq

/-- The observable outcome of a `get_air_quality` call: an
`HTTPException` (hard failure) or an ordinary response carrying a reading. -/
inductive ApiOutcome where
  | httpError : Nat → String → ApiOutcome
  | ok : Reading → ApiOutcome
deriving DecidableEq

/-- `dataset_options` of `get_air_quality` (main.py lines 504-508). -/
def dataset_options (pollutant : String) : List String :=
  if pollutant = "NO2" then ["TEMPO_NO2_L3"]
  else if pollutant = "O3" then ["TEMPO_O3TOT_L3"]
  else if pollutant = "HCHO" then ["TEMPO_HCHO_L3"]
  else []

/-- The reading built on every unavailable path of `get_air_quality`
(main.py lines 516-527 and 624-635). -/
def unavailable_reading (pollutant : String) (granules_found : Nat) : Reading :=
  { pollutant := pollutant, value := none, aqi := none,
    quality_level := "No disponible", available := false,
    granules_found := granules_found }

/-- `get_air_quality` (main.py lines 484-645) with the network
collaborators abstracted into data: `auth` is the authentication outcome
and `granules` the search result paired with each granule's
download/processing outcome.  The Bool component records whether the
handler reached the search/download stage.  The body's `try` swallows every
downstream exception into the unavailable path, so the only raise is the
coverage check; display rounding (`round(value, 2)`) is not modelled. -/
def get_air_quality (lat lon : ℚ) (pollutant : String) (auth : Bool)
    (granules : List AttemptOutcome) : ApiOutcome × Bool :=
  if ¬ is_in_north_america lat lon then
    (ApiOutcome.httpError 400
      "Location must be in North America (TEMPO coverage: 7N-83N, 168W-52W)", false)
  else if (dataset_options pollutant).isEmpty then
    (ApiOutcome.ok (unavailable_reading pollutant 0), false)
  else if auth then
    match (process_tempo_data true granules).1 with
    | some r =>
        let a := calculate_aqi pollutant (some (FloatVal.fin r.value))
        (ApiOutcome.ok
          (Reading.mk pollutant (some r.value) a.1 a.2 true granules.length), true)
    | none => (ApiOutcome.ok (unavailable_reading pollutant granules.length), true)
  else
    (ApiOutcome.ok (unavailable_reading pollutant 0), false)

theorem conversion_factor_pos (p : String) : 0 < conversion_factor p := by
  unfold conversion_factor
  split_ifs <;> norm_num

/-- C1: `calculate_aqi` returns the absent marker for `None`/NaN input, but
it does NOT return a numeric score for every valid non-negative value: at
value 0 the Python guard `int(aqi) if aqi else None` treats the float `0.0`
as falsy and the code returns an absent score paired with the segment
category "Good" — contradicting the documented contract that the absent
marker (with category "No disponible") appears exactly for absent/NaN
input. -/
theorem c1_zero_value_output :
    calculate_aqi "NO2" (some (FloatVal.fin 0)) = (none, "Good") ∧
    calculate_aqi "O3" (some (FloatVal.fin 0)) = (none, "Good") ∧
    calculate_aqi "NO2" none = (none, "No disponible") ∧
    calculate_aqi "NO2" (some FloatVal.nan) = (none, "No disponible") := by
  have h1 : ("O3" : String) ≠ "NO2" := by decide
  refine ⟨?_, ?_, rfl, rfl⟩
  · norm_num [calculate_aqi, aqi_level]
  · norm_num [calculate_aqi, aqi_level, h1]

/-- C3 counterexample: for NO2 at value 53.01 the code truncates the
pre-truncation score 50 + 1/94 down to the integer 50, so the returned
index is NOT "just above 50" — no returned numeric index above 50 exists at
that input. -/
theorem c3_no2_boundary_counterexample :
    calculate_aqi "NO2" (some (FloatVal.fin (5301 / 100))) = (some 50, "Moderate") ∧
    ¬ ∃ n : ℤ,
      (calculate_aqi "NO2" (some (FloatVal.fin (5301 / 100)))).1 = some n ∧ 50 < n := by
  have h : calculate_aqi "NO2" (some (FloatVal.fin (5301 / 100))) = (some 50, "Moderate") := by
    norm_num [calculate_aqi, aqi_level, pyInt]
  refine ⟨h, ?_⟩
  rintro ⟨n, hn, hlt⟩
  rw [h] at hn
  simp only [Option.some.injEq] at hn
  omega

/-- C3 (amended): NO2 at 53.0 yields index 50 with category "Good" (the
upper boundary of the first segment); at 53.01 the category is "Moderate"
and the pre-truncation score is just above 50, but the returned integer
index is its truncation, exactly 50. -/
theorem c3_no2_boundary_amended :
    calculate_aqi "NO2" (some (FloatVal.fin 53)) = (some 50, "Good") ∧
    calculate_aqi "NO2" (some (FloatVal.fin (5301 / 100))) = (some 50, "Moderate") ∧
    50 < (aqi_level "NO2" (5301 / 100)).1 := by
  refine ⟨?_, ?_, ?_⟩ <;> norm_num [calculate_aqi, aqi_level, pyInt]

/-- C4 counterexample: the sentinel band is asymmetric
(`value < -9e30 or value > 1e30`), so the validator is NOT
sign-independent: +5e30 is rejected while -5e30 — of the same magnitude,
beyond 1e30 — is accepted and converted. -/
theorem c4_validator_counterexample :
    validate_and_convert "O3" (FloatVal.fin (5 * 10 ^ 30)) = none ∧
    validate_and_convert "O3" (FloatVal.fin (-(5 * 10 ^ 30))) = some (5 * 10 ^ 30) ∧
    (10 ^ 30 : ℚ) < |(-(5 * 10 ^ 30) : ℚ)| := by
  have h1 : ¬("O3" = "NO2" ∨ "O3" = "HCHO") := by decide
  refine ⟨?_, ?_, ?_⟩
  · norm_num [validate_and_convert, is_invalid_value]
  · norm_num [validate_and_convert, is_invalid_value, h1]
  · rw [abs_neg, abs_of_nonneg (by norm_num)]
    norm_num

/-- C4 (amended): the validator rejects exactly when the value is NaN or
lies outside the asymmetric band `[-9e30, 1e30]` — i.e. when
`value < -9e30` or `value > 1e30` — not when its absolute magnitude exceeds
a symmetric threshold. -/
theorem c4_validator_amended :
    is_invalid_value FloatVal.nan = true ∧
    ∀ v : ℚ, is_invalid_value (FloatVal.fin v) = false ↔ -(9 * 10 ^ 30) ≤ v ∧ v ≤ 10 ^ 30 := by
  refine ⟨rfl, fun v => ?_⟩
  simp [is_invalid_value, not_lt]

/-- C8: for the single-factor pollutants NO2 and HCHO the converter returns
`abs(raw) * factor`, and dividing by the factor recovers `abs(raw)` exactly
(the ℚ model has no rounding, so "within floating-point tolerance" holds
with tolerance zero); the spec scenario 2e15 molecules/cm² × 5e-16 = 1.0
checks out. -/
theorem c8_conversion_roundtrip :
    (∀ raw : ℚ,
      convert_molecules_to_ppb (some (FloatVal.fin raw)) "NO2" = some (|raw| * (5 / 10 ^ 16)) ∧
      |raw| * (5 / 10 ^ 16) / (5 / 10 ^ 16) = |raw| ∧
      convert_molecules_to_ppb (some (FloatVal.fin raw)) "HCHO" = some (|raw| * (8 / 10 ^ 16)) ∧
      |raw| * (8 / 10 ^ 16) / (8 / 10 ^ 16) = |raw|) ∧
    convert_molecules_to_ppb (some (FloatVal.fin (2 * 10 ^ 15))) "NO2" = some 1 := by
  have h2 : ("HCHO" : String) ≠ "NO2" := by decide
  constructor
  · intro raw
    refine ⟨?_, ?_, ?_, ?_⟩
    · norm_num [convert_molecules_to_ppb, conversion_factor]
    · rw [mul_div_assoc, div_self (by norm_num), mul_one]
    · norm_num [convert_molecules_to_ppb, conversion_factor, h2]
    · rw [mul_div_assoc, div_self (by norm_num), mul_one]
  · norm_num [convert_molecules_to_ppb, conversion_factor]

/-- C10: every value a successful extraction hands onward is non-negative:
the converter output is `abs(raw)` times a positive per-pollutant factor,
the O3 path returns `abs(raw)`, and consequently `validate_and_convert`
never yields a negative result. -/
theorem c10_nonnegative_values :
    (∀ p : String, 0 < conversion_factor p) ∧
    (∀ p : String, ∀ m : ℚ,
      convert_molecules_to_ppb (some (FloatVal.fin m)) p = some (|m| * conversion_factor p)) ∧
    (∀ v : ℚ, is_invalid_value (FloatVal.fin v) = false →
      validate_and_convert "O3" (FloatVal.fin v) = some |v|) ∧
    (∀ p : String, ∀ v : FloatVal, ∀ r : ℚ, validate_and_convert p v = some r → 0 ≤ r) := by
  have hO3 : ¬(("O3" : String) = "NO2" ∨ ("O3" : String) = "HCHO") := by decide
  refine ⟨conversion_factor_pos, fun p m => rfl, ?_, ?_⟩
  · intro v h
    simp [validate_and_convert, h, hO3]
  · intro p v r h
    cases v with
    | nan => simp [validate_and_convert, is_invalid_value] at h
    | fin q =>
        unfold validate_and_convert at h
        split_ifs at h with h1 h2 h3
        · simp only [convert_molecules_to_ppb, Option.some.injEq] at h
          rw [← h]
          exact mul_nonneg (abs_nonneg q) (conversion_factor_pos p).le
        · simp only [Option.some.injEq] at h
          rw [← h]
          exact abs_nonneg q

/-- C10 witness: the O3 path at the concrete raw value -5 passes validation
and yields abs(-5) = 5, and the non-negativity theorem applies there. -/
theorem c10_nonnegative_values_witness :
    is_invalid_value (FloatVal.fin (-5)) = false ∧
    validate_and_convert "O3" (FloatVal.fin (-5)) = some 5 ∧ (0 : ℚ) ≤ 5 := by
  have hva : validate_and_convert "O3" (FloatVal.fin (-5)) = some 5 := by
    have h1 : ¬("O3" = "NO2" ∨ "O3" = "HCHO") := by decide
    norm_num [validate_and_convert, is_invalid_value, h1]
  refine ⟨by norm_num [is_invalid_value], hva,
    c10_nonnegative_values.2.2.2 "O3" (FloatVal.fin (-5)) 5 hva⟩

set_option maxHeartbeats 4000000 in
/-- C2: for every pollutant the piecewise index is contiguous — attaching
each boundary to the segment above (strict comparisons) yields the same
score, i.e. segment n's formula at its upper bound equals segment n+1's
formula at its lower bound — and the pre-truncation score is monotonically
non-decreasing over the non-negative value domain. -/
theorem c2_index_contiguous_monotone :
    (∀ p : String, ∀ v : ℚ, (aqi_level p v).1 = (aqi_level_strict p v).1) ∧
    (∀ p : String, ∀ v w : ℚ, 0 ≤ v → v ≤ w → (aqi_level p v).1 ≤ (aqi_level p w).1) := by
  constructor
  · intro p v
    unfold aqi_level aqi_level_strict
    split_ifs <;> dsimp only <;> linarith
  · intro p v w hv hvw
    unfold aqi_level
    split_ifs <;> dsimp only <;> linarith

/-- C2 witness: the contiguity and monotonicity statements applied at the
concrete pollutant NO2 and values 1 ≤ 2. -/
theorem c2_index_contiguous_monotone_witness :
    (aqi_level "NO2" 53).1 = (aqi_level_strict "NO2" 53).1 ∧
    (0 : ℚ) ≤ 1 ∧ (1 : ℚ) ≤ 2 ∧ (aqi_level "NO2" 1).1 ≤ (aqi_level "NO2" 2).1 :=
  ⟨c2_index_contiguous_monotone.1 "NO2" 53, by norm_num, by norm_num,
    c2_index_contiguous_monotone.2 "NO2" 1 2 (by norm_num) (by norm_num)⟩

/-- C5: the matcher's strategy tracks the dimensionality of the coordinate
arrays.  On 1-D axes both code paths (the L3 per-axis lookup and the L2
meshgrid branch selected by `len(lats.shape) == 1`) produce exactly the
independent per-axis minimum-absolute-difference result; on 2-D arrays the
L2 path produces the arg-minimum of Euclidean distance over all cells. -/
theorem c5_matcher_strategy (lats lons : List ℚ) (lat lon : ℚ)
    (hla : lats ≠ []) (hlo : lons ≠ []) :
    l3_nearest lats lons lat lon = spec_independent_nearest lats lons lat lon ∧
    l2_nearest (Coords.oneD lats lons) lat lon = spec_independent_nearest lats lons lat lon ∧
    ∀ lats2 lons2 : List (List ℚ),
      l2_nearest (Coords.twoD lats2 lons2) lat lon =
        spec_exhaustive_nearest_2d lats2 lons2 lat lon := by
  refine ⟨rfl, ?_, fun _ _ => rfl⟩
  show flatArgmin (distGrid (meshgridLats lons lats) (meshgridLons lons lats) lat lon) = _
  rw [distGrid_meshgrid, flatArgmin_grid lats lons lat lon hla hlo]
  rfl

/-- C5 witness: the strategy theorem applied to the concrete axes
[1, 2] × [3, 4] with target (2, 3), where the nearest cell is (1, 0). -/
theorem c5_matcher_strategy_witness :
    l2_nearest (Coords.oneD [1, 2] [3, 4]) 2 3 = spec_independent_nearest [1, 2] [3, 4] 2 3 ∧
    spec_independent_nearest [1, 2] [3, 4] 2 3 = (1, 0) := by
  refine ⟨(c5_matcher_strategy [1, 2] [3, 4] 2 3 (by simp) (by simp)).2.1, ?_⟩
  norm_num [spec_independent_nearest, argminIdx, listMin]

/-- C6: on a regular separable grid the per-axis shortcut and the
exhaustive meshgrid computation agree — the independent per-axis
minimum-absolute-difference pair equals the arg-minimum of full pairwise
Euclidean distance over the meshgrid of the two axes (first-occurrence
tie-breaking included). -/
theorem c6_separable_exhaustive_agree (lats lons : List ℚ) (lat lon : ℚ)
    (hla : lats ≠ []) (hlo : lons ≠ []) :
    spec_independent_nearest lats lons lat lon = spec_exhaustive_nearest lats lons lat lon := by
  unfold spec_exhaustive_nearest
  rw [flatArgmin_grid lats lons lat lon hla hlo]
  rfl

/-- C6 witness: the agreement theorem applied to the concrete axes
[0, 5] × [10, 11] with target (4, 11), where both sides yield (1, 1). -/
theorem c6_separable_exhaustive_agree_witness :
    spec_independent_nearest [0, 5] [10, 11] 4 11 =
      spec_exhaustive_nearest [0, 5] [10, 11] 4 11 ∧
    spec_independent_nearest [0, 5] [10, 11] 4 11 = (1, 1) := by
  refine ⟨c6_separable_exhaustive_agree [0, 5] [10, 11] 4 11 (by simp) (by simp), ?_⟩
  norm_num [spec_independent_nearest, argminIdx, listMin]

theorem granule_loop_fst (gs : List AttemptOutcome) :
    (granule_loop gs).1 = gs.findSome? fun a => (attempt_step a).1 := by
  induction gs with
  | nil => rfl
  | cons a rest ih =>
    rw [List.findSome?_cons]
    cases h : (attempt_step a).1 with
    | none => simp [granule_loop, h, ih]
    | some v => simp [granule_loop, h]

/-- C7: the orchestrator iterates the candidate granules in order up to the
fixed cap of 3, never aborts on a per-file failure, short-circuits on the
first validated value, and fails only once every attempted candidate is
exhausted (`findSome?` semantics); in the spec scenario — files 1-2 fail
with "variable absent" diagnostics, file 3 yields a value — it returns the
file-3 value with the two prior diagnostic batches accumulated. -/
theorem c7_orchestrator :
    (∀ gs : List AttemptOutcome,
      (process_tempo_data true gs).1 =
        if gs.isEmpty then none
        else (gs.take 3).findSome? fun a => (attempt_step a).1) ∧
    (∀ d1 d2 : List String, ∀ v : Extracted,
      process_tempo_data true
        [AttemptOutcome.processed d1 none, AttemptOutcome.processed d2 none,
          AttemptOutcome.processed [] (some v)] = (some v, d1 ++ d2)) := by
  constructor
  · intro gs
    by_cases hgs : gs.isEmpty <;>
      simp [process_tempo_data, hgs, granule_loop_fst]
  · intro d1 d2 v
    simp [process_tempo_data, granule_loop, attempt_step]

/-- C9: a coordinate outside the TEMPO coverage bounds is the only hard
failure of `get_air_quality` — rejected with HTTP 400 before any search or
download is reached — while inside the bounds the handler always returns an
ordinary response; in particular, exhaustion of every candidate granule
surfaces as an unavailable reading, never as an error. -/
theorem c9_fatal_only_bounds (lat lon : ℚ) (pollutant : String) (auth : Bool)
    (gs : List AttemptOutcome) :
    (¬ is_in_north_america lat lon →
      get_air_quality lat lon pollutant auth gs =
        (ApiOutcome.httpError 400
          "Location must be in North America (TEMPO coverage: 7N-83N, 168W-52W)", false)) ∧
    (is_in_north_america lat lon →
      (∃ r : Reading, (get_air_quality lat lon pollutant auth gs).1 = ApiOutcome.ok r) ∧
      (¬ (dataset_options pollutant).isEmpty = true → auth = true →
        (process_tempo_data true gs).1 = none →
        (get_air_quality lat lon pollutant auth gs).1 =
          ApiOutcome.ok (unavailable_reading pollutant gs.length))) := by
  constructor
  · intro h
    rw [get_air_quality, if_pos h]
  · intro h
    constructor
    · rw [get_air_quality, if_neg (not_not_intro h)]
      by_cases h1 : (dataset_options pollutant).isEmpty
      · rw [if_pos h1]
        exact ⟨_, rfl⟩
      · rw [if_neg h1]
        by_cases h2 : auth
        · rw [if_pos h2]
          cases hp : (process_tempo_data true gs).1 with
          | none => simp only [hp]; exact ⟨_, rfl⟩
          | some r => simp only [hp]; exact ⟨_, rfl⟩
        · rw [if_neg h2]
          exact ⟨_, rfl⟩
    · intro h1 h2 h3
      rw [get_air_quality, if_neg (not_not_intro h), if_neg h1, if_pos h2]
      simp only [h3]

/-- C9 witness: (0, 0) lies outside coverage and is rejected with 400
without touching the pipeline; (40, -100) lies inside and yields an
ordinary response. -/
theorem c9_fatal_only_bounds_witness :
    get_air_quality 0 0 "NO2" false [] =
      (ApiOutcome.httpError 400
        "Location must be in North America (TEMPO coverage: 7N-83N, 168W-52W)", false) ∧
    (∃ r : Reading, (get_air_quality 40 (-100) "NO2" false []).1 = ApiOutcome.ok r) ∧
    (get_air_quality 40 (-100) "NO2" true []).1 =
      ApiOutcome.ok (unavailable_reading "NO2" (List.length ([] : List AttemptOutcome))) := by
  refine ⟨?_, ?_, ?_⟩
  · exact (c9_fatal_only_bounds 0 0 "NO2" false []).1 (by norm_num [is_in_north_america])
  · exact ((c9_fatal_only_bounds 40 (-100) "NO2" false []).2
      (by norm_num [is_in_north_america])).1
  · exact ((c9_fatal_only_bounds 40 (-100) "NO2" true []).2
      (by norm_num [is_in_north_america])).2 (by decide) rfl rfl
